import Mathlib

/-!
Verification of the greenlight movie-catalog API server (Go) against its
natural-language specification. The Go source is shallowly embedded: pure
functions become Lean functions, database tables become lists threaded through
the model functions, machine integers become `Nat`/`Int`, fallible calls
return `Except`/`Option`, and a Go `panic` is an explicit constructor of the
handler-result type. Go strings are immutable byte sequences; strings whose
byte-level structure matters (tokens, passwords, headers) are embedded as
`List Nat` byte lists, while strings only ever compared as whole units
(scopes, messages, map keys) stay Lean `String`s.
-/

namespace Greenlight

/-- A Go string / byte slice, as its sequence of byte values (each < 256). -/
abbrev GoStr := List Nat

/-- UTF-8 encoding of one character, as Go's `[]byte(string)` produces. -/
def utf8Bytes (c : Char) : List Nat :=
  let n := c.toNat
  if n < 0x80 then [n]
  else if n < 0x800 then [0xC0 ||| (n >>> 6), 0x80 ||| (n &&& 0x3F)]
  else if n < 0x10000 then
    [0xE0 ||| (n >>> 12), 0x80 ||| ((n >>> 6) &&& 0x3F), 0x80 ||| (n &&& 0x3F)]
  else
    [0xF0 ||| (n >>> 18), 0x80 ||| ((n >>> 12) &&& 0x3F),
     0x80 ||| ((n >>> 6) &&& 0x3F), 0x80 ||| (n &&& 0x3F)]

/-- Go's `[]byte(s)` conversion: the UTF-8 bytes of the string. -/
def goBytes (s : String) : GoStr := (s.data.map utf8Bytes).flatten

/-- Go's `len(s)` on a string: its length in bytes. -/
def goLen (s : String) : Nat := (goBytes s).length

/-- Go's `strings.Split(s, " ")` over the byte representation: split at every
0x20 byte, keeping empty fields (UTF-8 continuation bytes are ≥ 0x80, so this
agrees with Go's byte-level split). -/
def splitSpaceB : GoStr → List GoStr
  | [] => [[]]
  | b :: rest =>
    if b = 32 then [] :: splitSpaceB rest
    else
      match splitSpaceB rest with
      | [] => [[b]]
      | part :: parts => (b :: part) :: parts

/- SHA-256 (FIPS 180-4), over byte lists, as used by `crypto/sha256.Sum256`. -/

/-- Truncation to a 32-bit word. -/
def w32 (n : Nat) : Nat := n % 4294967296

/-- Right rotation of a 32-bit word. -/
def rotr32 (x n : Nat) : Nat := w32 ((x >>> n) + ((x % (2 ^ n)) <<< (32 - n)))

/-- The 64 SHA-256 round constants. -/
def shaK : List Nat :=
  [1116352408, 1899447441, 3049323471, 3921009573, 961987163, 1508970993,
   2453635748, 2870763221, 3624381080, 310598401, 607225278, 1426881987,
   1925078388, 2162078206, 2614888103, 3248222580, 3835390401, 4022224774,
   264347078, 604807628, 770255983, 1249150122, 1555081692, 1996064986,
   2554220882, 2821834349, 2952996808, 3210313671, 3336571891, 3584528711,
   113926993, 338241895, 666307205, 773529912, 1294757372, 1396182291,
   1695183700, 1986661051, 2177026350, 2456956037, 2730485921, 2820302411,
   3259730800, 3345764771, 3516065817, 3600352804, 4094571909, 275423344,
   430227734, 506948616, 659060556, 883997877, 958139571, 1322822218,
   1537002063, 1747873779, 1955562222, 2024104815, 2227730452, 2361852424,
   2428436474, 2756734187, 3204031479, 3329325298]

/-- Merkle-Damgård padding: append 0x80, zero bytes, and the 64-bit length. -/
def shaPad (msg : List Nat) : List Nat :=
  let len := msg.length
  let padZeros := (55 + 64 - len % 64) % 64
  msg ++ [0x80] ++ List.replicate padZeros 0 ++
    (List.range 8).map (fun i => (len * 8) >>> (8 * (7 - i)) % 256)

/-- Big-endian grouping of bytes into 32-bit words. -/
def bytesToWords : List Nat → List Nat
  | b0 :: b1 :: b2 :: b3 :: rest => (((b0 * 256 + b1) * 256 + b2) * 256 + b3) :: bytesToWords rest
  | _ => []

/-- One step of the message-schedule expansion. -/
def shaSchedStep (w : Array Nat) (i : Nat) : Array Nat :=
  let w15 := w.getD (i - 15) 0
  let w2 := w.getD (i - 2) 0
  let s0 := (rotr32 w15 7) ^^^ (rotr32 w15 18) ^^^ (w15 >>> 3)
  let s1 := (rotr32 w2 17) ^^^ (rotr32 w2 19) ^^^ (w2 >>> 10)
  w.push (w32 (w.getD (i - 16) 0 + s0 + w.getD (i - 7) 0 + s1))

/-- The 64-word message schedule of one block. -/
def shaSchedule (ws : List Nat) : Array Nat :=
  (List.range 48).foldl (fun w i => shaSchedStep w (i + 16)) ws.toArray

/-- One SHA-256 compression round on the eight working registers. -/
def shaCompressStep (st : List Nat) (kw : Nat × Nat) : List Nat :=
  match st with
  | [a, b, c, d, e, f, g, h] =>
    let s1 := (rotr32 e 6) ^^^ (rotr32 e 11) ^^^ (rotr32 e 25)
    let ch := (e &&& f) ^^^ ((4294967295 - e) &&& g)
    let temp1 := w32 (h + s1 + ch + kw.1 + kw.2)
    let s0 := (rotr32 a 2) ^^^ (rotr32 a 13) ^^^ (rotr32 a 22)
    let maj := (a &&& b) ^^^ (a &&& c) ^^^ (b &&& c)
    let temp2 := w32 (s0 + maj)
    [w32 (temp1 + temp2), a, b, c, w32 (d + temp1), e, f, g]
  | other => other

/-- Compression of one 64-byte block into the chaining state. -/
def shaBlock (h : List Nat) (block : List Nat) : List Nat :=
  let w := shaSchedule (bytesToWords block)
  let st := (shaK.zip w.toList).foldl shaCompressStep h
  (h.zip st).map (fun p => w32 (p.1 + p.2))

/-- Fuelled 64-byte chunking (structural recursion so the kernel can reduce it). -/
def chunk64Go : Nat → List Nat → List (List Nat)
  | 0, _ => []
  | _, [] => []
  | fuel + 1, x :: xs => ((x :: xs).take 64) :: chunk64Go fuel ((x :: xs).drop 64)

/-- Split a padded message into its 64-byte blocks. -/
def chunk64 (l : List Nat) : List (List Nat) := chunk64Go l.length l

/-- The SHA-256 initial chaining value. -/
def shaInit : List Nat :=
  [1779033703, 3144134277, 1013904242, 2773480762,
   1359893119, 2600822924, 528734635, 1541459225]

/-- Big-endian serialization of 32-bit words back to bytes. -/
def wordsToBytes (ws : List Nat) : List Nat :=
  (ws.map (fun x => [(x >>> 24) % 256, (x >>> 16) % 256, (x >>> 8) % 256, x % 256])).flatten

/-- The SHA-256 digest (32 bytes) of a byte sequence: `sha256.Sum256`. -/
def sha256 (msg : List Nat) : List Nat :=
  wordsToBytes ((chunk64 (shaPad msg)).foldl shaBlock shaInit)

/-- Modelled from the spec: the repository's `internal/data` validator type is
not among the provided sources (only its callers are). Per the spec's error
envelope (§6, a structured map of field → message) it accumulates at most one
message per field; `Check` records a failure when its condition is false and
`Valid` holds when no check failed. -/
structure Validator where
  Errors : List (String × String)
deriving DecidableEq, Repr

/-- Modelled from the spec: a fresh validator with no recorded errors. -/
def NewValidator : Validator := ⟨[]⟩

/-- Modelled from the spec: record a message for a field unless one exists. -/
def Validator.AddError (v : Validator) (key message : String) : Validator :=
  if (v.Errors.find? (fun p => p.1 == key)).isSome then v
  else ⟨v.Errors ++ [(key, message)]⟩

/-- Modelled from the spec: record an error when the condition is false. -/
def Validator.Check (v : Validator) (ok : Bool) (key message : String) : Validator :=
  if ok then v else v.AddError key message

/-- Modelled from the spec: a validator is valid when no check failed. -/
def Validator.Valid (v : Validator) : Bool := v.Errors.isEmpty

/- Token issuance and matching: `internal/data/tokens.go`. -/

/-- Token scope constant `ActivationScope` from tokens.go. -/
def ActivationScope : String := "activation"

/-- Token scope constant `AuthenticationScope` from tokens.go. -/
def AuthenticationScope : String := "BearerAuthentication"

/-- The base32 standard alphabet used by `base32.StdEncoding`. -/
def base32Alphabet : GoStr := goBytes "ABCDEFGHIJKLMNOPQRSTUVWXYZ234567"

/-- Most-significant-bit-first bit expansion of a byte sequence. -/
def bytesToBits (bs : GoStr) : List Nat :=
  (bs.map (fun b => (List.range 8).map (fun i => b >>> (7 - i) % 2))).flatten

/-- Fuelled 5-bit grouping (structural recursion so the kernel can reduce it). -/
def chunk5Go : Nat → List Nat → List (List Nat)
  | 0, _ => []
  | _, [] => []
  | fuel + 1, x :: xs => ((x :: xs).take 5) :: chunk5Go fuel ((x :: xs).drop 5)

/-- Numeric value of a big-endian bit group. -/
def bitsVal (bits : List Nat) : Nat := bits.foldl (fun a b => a * 2 + b) 0

/-- RFC 4648 base32 encoding without padding: `base32.StdEncoding.WithPadding
(base32.NoPadding).EncodeToString`; a final partial group is zero-extended. -/
def base32EncodeNoPad (bs : GoStr) : GoStr :=
  (chunk5Go (bytesToBits bs).length (bytesToBits bs)).map
    (fun c => base32Alphabet.getD (bitsVal (c ++ List.replicate (5 - c.length) 0)) 0)

/- Password hashing: users.go delegates to golang.org/x/crypto/bcrypt, an
external collaborator. The digest is embedded symbolically: a `BcryptHash`
records the cost and the key material the one-way function consumes (bcrypt
uses at most the first 72 bytes of the password), and comparison re-derives
and compares that key. This idealizes bcrypt as collision-free in its
consumed key, which is the working assumption of the source. -/

/-- Symbolic bcrypt digest: cost and the (at most 72-byte) consumed key. -/
structure BcryptHash where
  cost : Nat
  key : GoStr
deriving DecidableEq, Repr

/-- Model of `bcrypt.GenerateFromPassword`: a password longer than 72 bytes is
rejected with `bcrypt.ErrPasswordTooLong`; otherwise the digest consumes the
whole password. -/
def bcryptGenerateFromPassword (password : GoStr) (cost : Nat) : Option BcryptHash :=
  if password.length > 72 then none else some { cost := cost, key := password }

/-- Model of `bcrypt.CompareHashAndPassword`: re-derive the digest from the
candidate (bcrypt consumes at most its first 72 bytes) and compare; `true` is
a nil error, `false` is `bcrypt.ErrMismatchedHashAndPassword`. -/
def bcryptCompareHashAndPassword (hash : BcryptHash) (password : GoStr) : Bool :=
  decide (hash.key = password.take 72)

/-- User record from users.go (`bun:"table:users"`); uuids are embedded as
`Nat` identifiers and timestamps as `Int` unix times. The `Password` field is
split into its two components so the record stays a plain product. -/
structure User where
  ID : Nat
  Name : String
  PasswordPlaintext : Option GoStr
  PasswordHash : Option BcryptHash
  Activated : Bool
  Email : String
  Version : Nat
deriving DecidableEq, Repr

/-- Token record from tokens.go (`bun:"table:tokens"`). `User` is the
nil-able joined relation pointer. -/
structure Token where
  PlainText : GoStr
  Hash : GoStr
  UserID : Nat
  User : Option User
  Expiry : Int
  Scope : String
deriving DecidableEq, Repr

/-- A list of tokens, as `type Tokens []*Token`. -/
abbrev Tokens := List Token

/-- Linear scan of `Tokens.Match`: return the first stored token whose hash
equals the candidate digest, with the success flag. -/
def Tokens.MatchAux (hash : GoStr) : Tokens → Option Token × Bool
  | [] => (none, false)
  | v :: rest => if v.Hash = hash then (some v, true) else Tokens.MatchAux hash rest

/-- The `Tokens.Match` method: digest the candidate plaintext and scan the
stored collection for a token with that hash. -/
def Tokens.Match (t : Tokens) (token : GoStr) : Option Token × Bool :=
  Tokens.MatchAux (sha256 token) t

/-- The `generateToken` helper: the 16 random bytes are an explicit input (the
entropy source is an external collaborator); the plaintext is their unpadded
base32 encoding and the stored hash its SHA-256 digest. -/
def generateToken (now : Int) (userID : Nat) (ttl : Int) (scope : String) (randomBytes : GoStr) : Token :=
  let tokenString := base32EncodeNoPad randomBytes
  { PlainText := tokenString
    Hash := sha256 tokenString
    UserID := userID
    User := none
    Expiry := now + ttl
    Scope := scope }

/-- The `ValidateTokenPlaintext` helper: the token must be present and exactly
26 bytes long. -/
def ValidateTokenPlaintext (v : Validator) (tokenPlaintext : GoStr) : Validator :=
  (v.Check (decide (tokenPlaintext ≠ [])) "token" "must be provided").Check
    (decide (tokenPlaintext.length = 26)) "token" "must be 26 bytes long"

/-- The `Password` struct of users.go: an ephemeral plaintext pointer and the
stored bcrypt hash, both nil-able. -/
structure Password where
  Plaintext : Option GoStr
  Hash : Option BcryptHash
deriving DecidableEq, Repr

/-- Error values surfaced by the data layer (users.go, movies.go). -/
inductive DataErr
  | errorPasswordTooLong
  | errorDuplicateEmail
  | errorRecordNotFound
  | errEditConflict
deriving DecidableEq, Repr

/-- The `Password.Set` method: hash with bcrypt at cost 12; a plaintext beyond
the 72-byte bcrypt limit is rejected with `ErrorPasswordTooLong`, otherwise
both fields are assigned. -/
def Password.Set (p : Password) (passString : GoStr) : Except DataErr Password :=
  match bcryptGenerateFromPassword passString 12 with
  | none => .error .errorPasswordTooLong
  | some bcryptPass => .ok { p with Plaintext := some passString, Hash := some bcryptPass }

/-- The `Password.Match` method: compare the stored hash against the bytes of
`*p.Plaintext`. `none` models the nil-pointer panic on an absent plaintext or
the malformed-hash error on an absent hash; `some ok` is the `(ok, nil)`
return. -/
def Password.Match (p : Password) : Option Bool :=
  match p.Plaintext, p.Hash with
  | some plaintext, some hash => some (bcryptCompareHashAndPassword hash plaintext)
  | _, _ => none

/-- The `ValidatePasswordPlaintext` helper: present, at least 8 and at most 72
bytes. -/
def ValidatePasswordPlaintext (v : Validator) (password : GoStr) : Validator :=
  ((v.Check (decide (password ≠ [])) "password" "must be provided").Check
    (decide (password.length ≥ 8)) "password" "must be at least 8 bytes long").Check
    (decide (password.length ≤ 72)) "password" "must not be more than 72 bytes long"

/-- The database state threaded through the model layer: the users and tokens
tables. -/
structure DB where
  users : List User
  tokens : List Token
deriving DecidableEq, Repr

/-- The `UserModel.Update` method: increment the version on the model value,
update rows matching `id = ? and version = ?` with the pre-increment version,
and scan the stored row back; zero matched rows surface `sql.ErrNoRows`,
which this method maps to `ErrorRecordNotFound`. Returns the updated table
and the scanned-back record. -/
def UserModel.Update (users : List User) (id : Nat) (user : User) : Except DataErr (List User × User) :=
  let user' := { user with Version := user.Version + 1 }
  if (users.filter (fun r => decide (r.ID = id ∧ r.Version = user'.Version - 1))).isEmpty then
    .error .errorRecordNotFound
  else
    .ok (users.map (fun r => if r.ID = id ∧ r.Version = user'.Version - 1 then user' else r), user')

/-- The `UserModel.GetUserByToken` method: the query selects the token row
joined with its user `Where("hash = ?", sha256(plaintext))`. The `tokenScope`
argument is accepted but, as in the source, never reaches the query, and no
expiry condition is issued; zero rows map to `ErrorRecordNotFound`. -/
def UserModel.GetUserByToken (db : DB) (tokenPlaintext : GoStr) (tokenScope : String) : Except DataErr User :=
  let hash := sha256 tokenPlaintext
  match db.tokens.find? (fun t => decide (t.Hash = hash)) with
  | none => .error .errorRecordNotFound
  | some nToken =>
    match db.users.find? (fun u => decide (u.ID = nToken.UserID)) with
    | none => .error .errorRecordNotFound
    | some user => .ok user

/-- The `TokenModel.GetTokensOfUserID` method: all stored tokens
`Where("user_id = ? AND scope = ?")`, each with its `Relation("User")` joined
record; an empty result is an empty slice, not an error. -/
def TokenModel.GetTokensOfUserID (db : DB) (userID : Nat) (tokenScope : String) : Tokens :=
  (db.tokens.filter (fun t => decide (t.UserID = userID ∧ t.Scope = tokenScope))).map
    (fun t => { t with User := db.users.find? (fun u => decide (u.ID = t.UserID)) })

/-- The `TokenModel.DeleteAllForUser` method: delete every token of the owner
and scope; zero affected rows map to `ErrorRecordNotFound`. Returns the
remaining table. -/
def TokenModel.DeleteAllForUser (db : DB) (userID : Nat) (scope : String) : Except DataErr (List Token) :=
  let remaining := db.tokens.filter (fun t => decide (¬(t.UserID = userID ∧ t.Scope = scope)))
  if remaining.length = db.tokens.length then .error .errorRecordNotFound
  else .ok remaining

/-- Movie record from movies.go (`bun:"table:movies"`). -/
structure Movie where
  ID : Int
  Title : String
  Year : Int
  Runtime : Int
  Genres : List String
  Version : Nat
deriving DecidableEq, Repr

/-- The `MovieModel.Update` method: increment the version on the model value,
then update rows matching `Where("id = ?")` and `Where("version = ?")` with
the post-increment version — the source compares the stored version against
`movie.Version` after the `movie.Version += 1`, unlike the user model which
compares against `Version - 1`. Zero matched rows surface `sql.ErrNoRows`,
mapped here to `ErrEditConflict`. -/
def MovieModel.Update (movies : List Movie) (id : Int) (movie : Movie) : Except DataErr (List Movie × Movie) :=
  let movie' := { movie with Version := movie.Version + 1 }
  if (movies.filter (fun r => decide (r.ID = id ∧ r.Version = movie'.Version))).isEmpty then
    .error .errEditConflict
  else
    .ok (movies.map (fun r => if r.ID = id ∧ r.Version = movie'.Version then movie' else r), movie')

/- HTTP responses: the error helpers of the api package (errors file). A
response body is the JSON envelope with a single key. -/

/-- A response body: the error envelope carries a message or a field→message
map; the result envelope carries an opaque payload description. -/
inductive Body
  | errorMsg (message : String)
  | errorFields (errors : List (String × String))
  | result (payload : String)
  | resultUser (u : User)
deriving DecidableEq, Repr

/-- An HTTP response: status code, headers and JSON envelope body. -/
structure Response where
  status : Nat
  headers : List (String × String)
  body : Body
deriving DecidableEq, Repr

/-- The `errorResponse` helper: given status and message, write the
`{"error": message}` envelope. -/
def errorResponse (status : Nat) (message : String) : Response :=
  { status := status, headers := [], body := .errorMsg message }

/-- Set one header on a response, as `w.Header().Set`. -/
def Response.setHeader (r : Response) (key value : String) : Response :=
  { r with headers := (key, value) :: r.headers.filter (fun p => p.1 ≠ key) }

/-- The generic 500 message of `serverErrorResponse`. -/
def serverErrMsg : String := "the server encountered an error to process the request"

/-- The `serverErrorResponse` helper as seen by the client (the error detail
itself goes to the log, handled where logging is modelled). -/
def serverErrorResponse : Response := errorResponse 500 serverErrMsg

/-- The `notFoundResponse` helper (404). -/
def notFoundResponse : Response :=
  errorResponse 404 "the requested resource couldn\x27t be found"

/-- The `badRequestResponse` helper (400) with the error text. -/
def badRequestResponse (err : String) : Response := errorResponse 400 err

/-- The `failedValidationResponse` helper (422) with the field errors. -/
def failedValidationResponse (errors : List (String × String)) : Response :=
  { status := 422, headers := [], body := .errorFields errors }

/-- The `editConflictResponse` helper (409). -/
def editConflictResponse : Response :=
  errorResponse 409 "unable to update the record due to an edit conflict, please try again"

/-- The `rateLimitExceedResponse` helper (429). -/
def rateLimitExceedResponse : Response :=
  errorResponse 429 "request rate limit reached, please try again later"

/-- The `invalidActivationTokenResponse` helper (401). -/
def invalidActivationTokenResponse : Response :=
  errorResponse 401 "invalid or expired activation token"

/-- The `invalidAuthenticationCredResponse` helper (401 with challenge). -/
def invalidAuthenticationCredResponse : Response :=
  (errorResponse 401 "invalid authentication creds or token").setHeader "WWW-Authenticate" "Bearer Jwt"

/-- The `authenticationRequiredResposne` helper (401 with challenge); the
source spells the name this way. -/
def authenticationRequiredResposne : Response :=
  (errorResponse 401 "authentication required").setHeader "WWW-Authenticate" "Bearer Jwt"

/-- The `unauthorizedAccessInactiveUserResponse` helper (403). -/
def unauthorizedAccessInactiveUserResponse : Response :=
  errorResponse 403 "user must be activated to access this resource"

/-- The identity resolved for a request, stored in the request context. The
source uses the sentinel pointer `AnonymousUser = &User{}` with the
`IsAnonymous` pointer-equality predicate; the spec's sanctioned embedding of
that sentinel is a tagged union. -/
inductive CtxUser
  | anonymous
  | known (u : User)
deriving DecidableEq, Repr

/-- The `User.IsAnonymous` predicate. -/
def CtxUser.IsAnonymous : CtxUser → Bool
  | .anonymous => true
  | .known _ => false

/-- The `Activated` field as read through the context pointer; the sentinel
`&User{}` has the zero value `false`. -/
def CtxUser.Activated : CtxUser → Bool
  | .anonymous => false
  | .known u => u.Activated

/-- The outcome of running a handler: a written response, or a Go panic
carrying its value. -/
inductive HandlerResult
  | response (r : Response)
  | panicked (panicErr : String)
deriving DecidableEq, Repr

/-- The panic value of a nil-pointer dereference at runtime. -/
def nilDerefPanicMsg : String :=
  "runtime error: invalid memory address or nil pointer dereference"

/- Middleware: cmd/api/middleware.go. Each middleware takes the downstream
handler in continuation style, mirroring the nested-closure composition of
the source. -/

/-- The `Auth` middleware (opaque bearer): an absent Authorization header
proceeds as the anonymous identity; otherwise the header must split into
exactly `Bearer <token>`, the token must pass shape validation (26 bytes),
and the identity is resolved through `GetUserByToken` with the
authentication scope; a lookup miss is a 401. -/
def Auth (db : DB) (authHeader : GoStr) (next : CtxUser → HandlerResult) : HandlerResult :=
  if authHeader = [] then next .anonymous
  else
    match splitSpaceB authHeader with
    | [scheme, userToken] =>
      if scheme ≠ goBytes "Bearer" then .response invalidAuthenticationCredResponse
      else if (ValidateTokenPlaintext NewValidator userToken).Valid = false then
        .response invalidActivationTokenResponse
      else
        match UserModel.GetUserByToken db userToken AuthenticationScope with
        | .error .errorRecordNotFound => .response invalidAuthenticationCredResponse
        | .error _ => .response serverErrorResponse
        | .ok user => next (.known user)
    | _ => .response invalidAuthenticationCredResponse

/-- The `requiredNonAnonymousUser` middleware: reject the anonymous identity
with the authentication-required 401. -/
def requiredNonAnonymousUser (next : CtxUser → HandlerResult) (nUser : CtxUser) : HandlerResult :=
  if nUser.IsAnonymous then .response authenticationRequiredResposne else next nUser

/-- The `requireActivatedUser` middleware: its inner handler rejects a
non-activated identity with the inactive-user 403, and the whole is wrapped
in `requiredNonAnonymousUser`. -/
def requireActivatedUser (next : CtxUser → HandlerResult) : CtxUser → HandlerResult :=
  requiredNonAnonymousUser (fun nUser =>
    if nUser.Activated = false then .response unauthorizedAccessInactiveUserResponse
    else next nUser)

/-- The `PanicRecovery` middleware: run the downstream handler; on a panic,
set `Connection: close`, and answer with `serverErrorResponse` whose logged
detail is `fmt.Errorf("%s, %s", panicErr, debug.Stack())`. The second
component is the server-side log produced by the wrapper. -/
def PanicRecovery {α : Type} (stack : String) (next : α → HandlerResult) (r : α) : Response × List String :=
  match next r with
  | .response resp => (resp, [])
  | .panicked panicErr =>
    (serverErrorResponse.setHeader "Connection" "close", [panicErr ++ ", " ++ stack])

/- Rate limiting: the `RateLimit` middleware of middleware.go, built on
golang.org/x/time/rate token buckets. A limiter starts with a full bucket of
`burst` tokens; `Allow` consumes one token exactly when one is available. The
claims under verification concern bursts of requests arriving at one instant,
so the embedding captures the zero-elapsed-time behaviour of `Allow` (no
refill happens when no time passes); the refill rate is carried in the state
but does not act within an instant. -/

/-- A token bucket as `*rate.Limiter`: refill rate, burst capacity, and the
tokens currently available. -/
structure Limiter where
  rateLimit : Nat
  burst : Nat
  tokens : Nat
deriving DecidableEq, Repr

/-- `rate.NewLimiter`: a fresh limiter starts full. -/
def NewLimiter (r burst : Nat) : Limiter :=
  { rateLimit := r, burst := burst, tokens := burst }

/-- `Limiter.Allow` at one instant: consume a token when available. -/
def Limiter.Allow (b : Limiter) : Bool × Limiter :=
  if 0 < b.tokens then (true, { b with tokens := b.tokens - 1 }) else (false, b)

/-- The per-client entry `ClientRateLimiter`: its bucket and the deadline of
its idle-expiry timer (`LastAccess`). -/
structure ClientRateLimiter where
  Limit : Limiter
  LastAccess : Nat
deriving DecidableEq, Repr

/-- Rate-limit configuration (`config.rateLimit`). -/
structure RLConfig where
  enabled : Bool
  globalRateLimit : Nat
  perClientRateLimit : Nat
deriving DecidableEq, Repr

/-- Burst size as computed in the source: `rate + rate/10` with integer
division. -/
def burstSize (r : Nat) : Nat := r + r / 10

/-- The rate limiter's closure state: the global bucket `nRL` and the
per-client map `pcnRL` keyed by client address. -/
structure RLState where
  nRL : Limiter
  pcnRL : List (String × ClientRateLimiter)
deriving DecidableEq, Repr

/-- The state captured when the middleware is built: a full global bucket and
an empty per-client map. -/
def RLStateNew (cfg : RLConfig) : RLState :=
  { nRL := NewLimiter cfg.globalRateLimit (burstSize cfg.globalRateLimit), pcnRL := [] }

/-- Lookup in the per-client map. -/
def lookupClient : List (String × ClientRateLimiter) → String → Option ClientRateLimiter
  | [], _ => none
  | (k, v) :: rest, key => if k = key then some v else lookupClient rest key

/-- Pointwise update of one key of the per-client map. -/
def updateClient : List (String × ClientRateLimiter) → String →
    (ClientRateLimiter → ClientRateLimiter) → List (String × ClientRateLimiter)
  | [], _, _ => []
  | (k, v) :: rest, key, f =>
    if k = key then (k, f v) :: updateClient rest key f
    else (k, v) :: updateClient rest key f

/-- Deletion from the per-client map (the body of the expiry goroutine's
`delete(pcnRL, clientAddr)`). -/
def deleteClient (m : List (String × ClientRateLimiter)) (key : String) :
    List (String × ClientRateLimiter) :=
  m.filter (fun p => p.1 ≠ key)

/-- The idle-expiry timer window (30 seconds). -/
def expirationTime : Nat := 30

/-- The outcome of the rate-limit middleware for one request. -/
inductive RLResult
  | passed
  | halted (resp : Response)
deriving DecidableEq, Repr

/-- One request through the `RateLimit` middleware. When disabled the wrapper
is a pass-through. Otherwise: the global bucket is consulted first and an
empty bucket halts with the 429 before any per-client bookkeeping; then the
client address (already split from the port; `none` models a malformed
`RemoteAddr`, halted with a 500) selects the per-client entry — created full
with a fresh 30s timer on first sight, its timer renewed otherwise — whose
bucket is then consulted for the same 429. -/
def RateLimit (cfg : RLConfig) (now : Nat) (st : RLState) (clientAddr? : Option String) :
    RLResult × RLState :=
  if cfg.enabled = false then (.passed, st)
  else
    match st.nRL.Allow with
    | (false, nRL') => (.halted rateLimitExceedResponse, { st with nRL := nRL' })
    | (true, nRL') =>
      match clientAddr? with
      | none => (.halted serverErrorResponse, { st with nRL := nRL' })
      | some clientAddr =>
        let pcnRL1 :=
          match lookupClient st.pcnRL clientAddr with
          | none =>
            st.pcnRL ++ [(clientAddr,
              { Limit := NewLimiter cfg.perClientRateLimit (burstSize cfg.perClientRateLimit)
                LastAccess := now + expirationTime })]
          | some _ =>
            updateClient st.pcnRL clientAddr (fun c => { c with LastAccess := now + expirationTime })
        match lookupClient pcnRL1 clientAddr with
        | none => (.halted serverErrorResponse, { nRL := nRL', pcnRL := pcnRL1 })
        | some entry =>
          let (ok, limit') := entry.Limit.Allow
          let pcnRL2 := updateClient pcnRL1 clientAddr (fun c => { c with Limit := limit' })
          if ok then (.passed, { nRL := nRL', pcnRL := pcnRL2 })
          else (.halted rateLimitExceedResponse, { nRL := nRL', pcnRL := pcnRL2 })

/-- Sequential processing of a burst of requests through the middleware. -/
def RateLimitRun (cfg : RLConfig) (now : Nat) (st : RLState) :
    List (Option String) → List RLResult × RLState
  | [] => ([], st)
  | a :: rest =>
    let (o, st') := RateLimit cfg now st a
    let (os, st'') := RateLimitRun cfg now st' rest
    (o :: os, st'')

/-- The expiry goroutine body, firing when a client's timer deadline passes
without renewal: remove the entry under the write lock. -/
def expireClient (st : RLState) (clientAddr : String) (now : Nat) : RLState :=
  match lookupClient st.pcnRL clientAddr with
  | some c => if c.LastAccess ≤ now then { st with pcnRL := deleteClient st.pcnRL clientAddr } else st
  | none => st

/- Handlers: cmd/api/tokens.go (user activation) and cmd/api/users.go (user
registration with the background welcome-email job). External collaborators
appear as explicit inputs: the JSON decode result, the entropy bytes, the
email-shape regex, the DB-generated id, and the success of each
insert/send. -/

/-- The `userActivationHandler`: parse the uuid parameter and the token body,
shape-check the token, fetch the user's stored activation-scope tokens, and
match. The source reads `matchedToken.Expiry` before checking the match flag,
so an unmatched candidate dereferences the nil result and panics. On a full
match the joined user is activated via `UserModel.Update` and all
activation-scope tokens are deleted. -/
def userActivationHandler (db : DB) (now : Int) (uuidParam : Option Nat)
    (jsonBody : Except String GoStr) : HandlerResult × DB :=
  match uuidParam with
  | none => (.response (failedValidationResponse [("uuid", "invalid uuid")]), db)
  | some userID =>
    match jsonBody with
    | .error e => (.response (badRequestResponse e), db)
    | .ok userToken =>
      let nVal := ValidateTokenPlaintext NewValidator userToken
      if nVal.Valid = false then (.response (failedValidationResponse nVal.Errors), db)
      else
        let nTokens := TokenModel.GetTokensOfUserID db userID ActivationScope
        match Tokens.Match nTokens userToken with
        | (none, _) => (.panicked nilDerefPanicMsg, db)
        | (some matchedToken, ok) =>
          if now > matchedToken.Expiry then (.response invalidActivationTokenResponse, db)
          else if ok = false then (.response invalidActivationTokenResponse, db)
          else
            match matchedToken.User with
            | none => (.panicked nilDerefPanicMsg, db)
            | some tokenUser =>
              let tokenUser := { tokenUser with Activated := true }
              match UserModel.Update db.users userID tokenUser with
              | .error .errorRecordNotFound => (.response notFoundResponse, db)
              | .error .errEditConflict => (.response editConflictResponse, db)
              | .error _ => (.response serverErrorResponse, db)
              | .ok (users', _) =>
                match TokenModel.DeleteAllForUser { db with users := users' } userID ActivationScope with
                | .error _ => (.response serverErrorResponse, { db with users := users' })
                | .ok tokens' =>
                  (.response { status := 200, headers := [], body := .result "user activated" },
                   { users := users', tokens := tokens' })

/-- The observable trace of one run of the welcome-email job: how many send
attempts were made, whether one succeeded, the sleeps performed (in
milliseconds) and how many failures were logged. -/
structure EmailTrace where
  attempts : Nat
  delivered : Bool
  sleptMs : List Nat
  errLogs : Nat
deriving DecidableEq, Repr

/-- The empty trace: no attempt was made. -/
def noEmailTrace : EmailTrace :=
  { attempts := 0, delivered := false, sleptMs := [], errLogs := 0 }

/-- The retry loop of the welcome email, `for i := 0; i < 3; i++`: each
iteration attempts a send; success returns at once; failure logs the error
and sleeps a fixed 500 milliseconds before the next iteration (also after
the last one, as in the source). The `send` oracle gives the outcome of each
attempt. -/
def sendEmailRetryGo (send : Nat → Bool) : Nat → Nat → EmailTrace
  | 0, _ => noEmailTrace
  | fuel + 1, i =>
    if send i then { attempts := 1, delivered := true, sleptMs := [], errLogs := 0 }
    else
      let t := sendEmailRetryGo send fuel (i + 1)
      { attempts := t.attempts + 1, delivered := t.delivered
        sleptMs := 500 :: t.sleptMs, errLogs := t.errLogs + 1 }

/-- The welcome-email retry loop with its fixed 3 attempts. -/
def welcomeEmailRetry (send : Nat → Bool) : EmailTrace := sendEmailRetryGo send 3 0

/-- The body of the background job dispatched by `registerUserHandler`:
create an activation token valid 72 hours (`Tokens.New`; `tokenNewOk = false`
models a failed creation, which only logs and returns) and run the email
retry loop. Returns the resulting database and the job's trace. -/
def registerEmailJob (db : DB) (now : Int) (nUser : User) (randomBytes : GoStr)
    (tokenNewOk : Bool) (send : Nat → Bool) : DB × EmailTrace :=
  if tokenNewOk = false then (db, noEmailTrace)
  else
    let nToken := generateToken now nUser.ID (72 * 3600) ActivationScope randomBytes
    ({ db with tokens := db.tokens ++ [nToken] }, welcomeEmailRetry send)

/-- The decoded registration body. -/
structure RegisterInput where
  Name : String
  Password : GoStr
  Email : String
deriving DecidableEq, Repr

/-- The `ValidateEmail` helper; the `EmailRX` regular expression is an
external collaborator supplied as a predicate. -/
def ValidateEmail (v : Validator) (email : String) (emailShapeOk : String → Bool) : Validator :=
  (v.Check (decide (email ≠ "")) "email" "must be provided").Check
    (emailShapeOk email) "email" "must be a valid email address"

/-- The `ValidateUser` helper: name present and at most 500 bytes, email
shape-valid, password plaintext bounds when present; a missing password hash
is a programming-bug panic, modelled as `none`. -/
def ValidateUser (v : Validator) (user : User) (emailShapeOk : String → Bool) : Option Validator :=
  let v1 := (v.Check (decide (user.Name ≠ "")) "name" "must be provided").Check
    (decide (goLen user.Name ≤ 500)) "name" "must not be more than 500 bytes long"
  let v2 := ValidateEmail v1 user.Email emailShapeOk
  let v3 :=
    match user.PasswordPlaintext with
    | some plaintext => ValidatePasswordPlaintext v2 plaintext
    | none => v2
  match user.PasswordHash with
  | none => none
  | some _ => some v3

/-- The `registerUserHandler`: decode the body, set the password (the 72-byte
bcrypt bound maps to a 400), validate, insert the user (a duplicate email
maps to a 422), grant the default read permission, dispatch the background
welcome-email job, and answer 202 with the created user. The stored user and
the response are produced before the job's outcome can be known. -/
def registerUserHandler (db : DB) (now : Int) (jsonBody : Except String RegisterInput)
    (emailShapeOk : String → Bool) (newID : Nat) (permAddOk : Bool)
    (randomBytes : GoStr) (tokenNewOk : Bool) (send : Nat → Bool) :
    HandlerResult × DB × EmailTrace :=
  match jsonBody with
  | .error e => (.response (badRequestResponse e), db, noEmailTrace)
  | .ok nInput =>
    let nUser : User :=
      { ID := 0, Name := nInput.Name, PasswordPlaintext := none, PasswordHash := none
        Activated := false, Email := nInput.Email, Version := 0 }
    match Password.Set { Plaintext := nUser.PasswordPlaintext, Hash := nUser.PasswordHash }
        nInput.Password with
    | .error .errorPasswordTooLong =>
      (.response (badRequestResponse "user password is too long"), db, noEmailTrace)
    | .error _ => (.response serverErrorResponse, db, noEmailTrace)
    | .ok npw =>
      let nUser := { nUser with PasswordPlaintext := npw.Plaintext, PasswordHash := npw.Hash }
      match ValidateUser NewValidator nUser emailShapeOk with
      | none => (.panicked "missing password hash for user", db, noEmailTrace)
      | some nVal =>
        if nVal.Valid = false then
          (.response (failedValidationResponse nVal.Errors), db, noEmailTrace)
        else if (db.users.filter (fun u => decide (u.Email = nUser.Email))).isEmpty = false then
          (.response (failedValidationResponse
            ((nVal.AddError "email" "user with current email already exists").Errors)),
           db, noEmailTrace)
        else
          let nUser := { nUser with ID := newID, Version := 1 }
          let db1 : DB := { db with users := db.users ++ [nUser] }
          if permAddOk = false then (.response serverErrorResponse, db1, noEmailTrace)
          else
            let (db2, trace) := registerEmailJob db1 now nUser randomBytes tokenNewOk send
            (.response { status := 202
                         headers := [("Location", "/v1/users/" ++ toString newID)]
                         body := .resultUser nUser },
             db2, trace)

/- Concrete instances used to evaluate the model at specific inputs. -/

/-- A stored, activated user. -/
def sampleUser : User :=
  { ID := 7, Name := "Alice", PasswordPlaintext := none
    PasswordHash := some { cost := 12, key := goBytes "correcthorse" }
    Activated := true, Email := "alice@example.com", Version := 1 }

/-- A shape-valid 26-byte token plaintext. -/
def tok26 : GoStr := goBytes "ABCDEFGHIJKLMNOPQRSTUVWXYZ"

/-- A stored token for `sampleUser` whose scope is the activation scope (not
the authentication scope) and whose expiry lies in the past relative to any
non-negative clock. -/
def expiredActivationToken : Token :=
  { PlainText := tok26, Hash := sha256 tok26, UserID := 7, User := none
    Expiry := -5, Scope := ActivationScope }

/-- A database holding only that token and its owner. -/
def dbScopeBug : DB := { users := [sampleUser], tokens := [expiredActivationToken] }

/-- The Authorization header presenting that token. -/
def authHeaderBug : GoStr := goBytes "Bearer ABCDEFGHIJKLMNOPQRSTUVWXYZ"

/-- A stored movie at version 1. -/
def sampleMovie : Movie :=
  { ID := 1, Title := "Casablanca", Year := 1942, Runtime := 102
    Genres := ["drama"], Version := 1 }

/-- A stored activation token whose hash matches no candidate digest (a
SHA-256 digest has 32 bytes, this has 1). -/
def unmatchedStoredToken : Token :=
  { PlainText := [], Hash := [1], UserID := 9, User := none
    Expiry := 9999999999, Scope := ActivationScope }

/-- A database whose user 9 owns one activation token. -/
def dbUnmatched : DB := { users := [], tokens := [unmatchedStoredToken] }

/-- A shape-valid candidate token that matches nothing in `dbUnmatched`. -/
def candidateTok : GoStr := goBytes "AAAAAAAAAAAAAAAAAAAAAAAAAA"

/-- A token as issued by `generateToken` from 16 zero entropy bytes. -/
def issuedToken : Token := generateToken 0 7 259200 ActivationScope (List.replicate 16 0)

/-- An enabled rate-limit configuration: 10 requests/sec both tiers, so both
burst sizes are 11. -/
def rlCfg : RLConfig := { enabled := true, globalRateLimit := 10, perClientRateLimit := 10 }

/-- Twelve pairwise distinct client addresses: one more than the global
burst. -/
def rlAddrs : List String :=
  ["c0", "c1", "c2", "c3", "c4", "c5", "c6", "c7", "c8", "c9", "c10", "c11"]

/-- A registration input within every validation bound. -/
def regInput : RegisterInput :=
  { Name := "Bob", Password := goBytes "hunter2hunter2", Email := "bob@example.com" }

/-- The user record that `registerUserHandler` stores and returns on its
success path for a given input and DB-assigned id. -/
def mkRegUser (inp : RegisterInput) (newID : Nat) : User :=
  { ID := newID, Name := inp.Name, PasswordPlaintext := some inp.Password
    PasswordHash := some { cost := 12, key := inp.Password }
    Activated := false, Email := inp.Email, Version := 1 }

/- Helper lemmas. -/

/-- The token scan fails exactly on a collection with no matching hash. -/
theorem tokensMatchAux_none (hash : GoStr) (ts : Tokens)
    (h : ∀ t ∈ ts, t.Hash ≠ hash) : Tokens.MatchAux hash ts = (none, false) := by
  induction ts with
  | nil => rfl
  | cons a l ih =>
    have ha := h a (List.mem_cons_self a l)
    simp only [Tokens.MatchAux, if_neg ha]
    exact ih (fun t ht => h t (List.mem_cons_of_mem a ht))

/-- The token scan returns the unique stored token carrying the digest. -/
theorem tokensMatchAux_first (hash : GoStr) (ts : Tokens) (t : Token)
    (hmem : t ∈ ts) (hth : t.Hash = hash)
    (huniq : ∀ t' ∈ ts, t'.Hash = hash → t' = t) :
    Tokens.MatchAux hash ts = (some t, true) := by
  induction ts with
  | nil => cases hmem
  | cons a l ih =>
    by_cases ha : a.Hash = hash
    · have hat := huniq a (List.mem_cons_self a l) ha
      subst hat
      simp only [Tokens.MatchAux, if_pos ha]
    · have hmem' : t ∈ l := by
        rcases List.mem_cons.mp hmem with h | h
        · exact absurd (h ▸ hth) ha
        · exact h
      simp only [Tokens.MatchAux, if_neg ha]
      exact ih hmem' (fun t' ht' h' => huniq t' (List.mem_cons_of_mem a ht') h')

/-- Evaluation of the password validator: valid exactly on 8 to 72 bytes. -/
theorem validatePasswordPlaintext_valid_iff (pw : GoStr) :
    (ValidatePasswordPlaintext NewValidator pw).Valid = true ↔
      (8 ≤ pw.length ∧ pw.length ≤ 72) := by
  by_cases h2 : 8 ≤ pw.length
  · have h1 : pw ≠ [] := by
      intro he
      subst he
      simp at h2
    by_cases h3 : pw.length ≤ 72
    · simp [ValidatePasswordPlaintext, Validator.Check, Validator.AddError, Validator.Valid,
        NewValidator, h1, h2, h3]
    · simp [ValidatePasswordPlaintext, Validator.Check, Validator.AddError, Validator.Valid,
        NewValidator, h1, h2, h3]
  · by_cases h1 : pw = []
    · subst h1
      simp [ValidatePasswordPlaintext, Validator.Check, Validator.AddError, Validator.Valid,
        NewValidator]
    · simp [ValidatePasswordPlaintext, Validator.Check, Validator.AddError, Validator.Valid,
        NewValidator, h1, h2]

/- Claim theorems. -/

/-- C2: the spec claims a stale version yields the 409 conflict and the
current version succeeds with the version incremented by one. On the code:
the movie update compares the stored version against the already-incremented
model version, so submitting the movie at its current stored version (1)
yields the edit conflict; the user update matches the stored version
correctly but maps zero matched rows to `ErrorRecordNotFound` (a 404), not
the conflict; the user current-version path does succeed and increments by
exactly one. -/
theorem optimistic_update_mismatch :
    MovieModel.Update [sampleMovie] 1 sampleMovie = .error DataErr.errEditConflict
    ∧ UserModel.Update [sampleUser] 7 { sampleUser with Version := 2 } =
        .error DataErr.errorRecordNotFound
    ∧ UserModel.Update [sampleUser] 7 sampleUser =
        .ok ([{ sampleUser with Version := 2 }], { sampleUser with Version := 2 }) := by
  refine ⟨by rfl, by rfl, by rfl⟩

/-- C4: a token issued by `generateToken` is found by `Tokens.Match` on its
returned plaintext (as the unique stored carrier of that digest), and a
plaintext whose digest matches no stored hash never matches. -/
theorem token_issue_match_roundtrip :
    (∀ (ts : Tokens) (now ttl : Int) (uid : Nat) (bs : GoStr) (t : Token),
        t = generateToken now uid ttl ActivationScope bs →
        t ∈ ts →
        (∀ t' ∈ ts, t'.Hash = sha256 t.PlainText → t' = t) →
        Tokens.Match ts t.PlainText = (some t, true))
    ∧ (∀ (ts : Tokens) (p : GoStr),
        (∀ t' ∈ ts, t'.Hash ≠ sha256 p) → Tokens.Match ts p = (none, false)) := by
  constructor
  · intro ts now ttl uid bs t hgen hmem huniq
    have hth : t.Hash = sha256 t.PlainText := by rw [hgen]; rfl
    exact tokensMatchAux_first (sha256 t.PlainText) ts t hmem hth huniq
  · intro ts p h
    exact tokensMatchAux_none (sha256 p) ts h

/-- Witness for C4 at a concrete issued token and a concrete unissued
plaintext. -/
theorem token_issue_match_roundtrip_witness :
    Tokens.Match [issuedToken] issuedToken.PlainText = (some issuedToken, true)
    ∧ Tokens.Match [] [1, 2, 3] = (none, false) :=
  ⟨token_issue_match_roundtrip.1 [issuedToken] 0 259200 7 (List.replicate 16 0) issuedToken rfl
      (List.mem_singleton.mpr rfl) (fun t' ht' _ => List.mem_singleton.mp ht'),
   token_issue_match_roundtrip.2 [] [1, 2, 3] (fun t' ht' => absurd ht' (List.not_mem_nil t'))⟩

/-- C5: an absent Authorization header proceeds as the anonymous identity; an
anonymous identity reaching the activation gate gets the 401
authentication-required rejection, distinct from the 403 inactive-user
rejection given to an authenticated but non-activated identity. -/
theorem anonymous_gate (db : DB) (next : CtxUser → HandlerResult) :
    Auth db [] next = next CtxUser.anonymous
    ∧ Auth db [] (requireActivatedUser next) = .response authenticationRequiredResposne
    ∧ requireActivatedUser next CtxUser.anonymous = .response authenticationRequiredResposne
    ∧ (∀ u : User, u.Activated = false →
        requireActivatedUser next (CtxUser.known u) =
          .response unauthorizedAccessInactiveUserResponse)
    ∧ authenticationRequiredResposne.status = 401
    ∧ unauthorizedAccessInactiveUserResponse.status = 403
    ∧ authenticationRequiredResposne ≠ unauthorizedAccessInactiveUserResponse := by
  refine ⟨rfl, rfl, rfl, ?_, rfl, rfl, by decide⟩
  intro u hu
  simp [requireActivatedUser, requiredNonAnonymousUser, CtxUser.IsAnonymous, CtxUser.Activated, hu]

/-- Witness for C5 at a concrete non-activated user and handler. -/
theorem anonymous_gate_witness :
    requireActivatedUser (fun _ => .response notFoundResponse)
        (CtxUser.known { sampleUser with Activated := false }) =
      .response unauthorizedAccessInactiveUserResponse :=
  (anonymous_gate { users := [], tokens := [] } (fun _ => .response notFoundResponse)).2.2.2.1
    { sampleUser with Activated := false } rfl

/-- C9: when the downstream handler panics, the recovery wrapper answers with
connection-close, status 500 and the fixed generic body — the panic value
reaches only the server-side log. -/
theorem panic_recovery_policy (α : Type) (next : α → HandlerResult) (r : α)
    (panicVal stack : String) (h : next r = .panicked panicVal) :
    PanicRecovery stack next r =
      ({ status := 500, headers := [("Connection", "close")], body := .errorMsg serverErrMsg },
       [panicVal ++ ", " ++ stack]) := by
  simp [PanicRecovery, h, serverErrorResponse, errorResponse, Response.setHeader]

/-- Witness for C9 at a concrete panicking handler. -/
theorem panic_recovery_policy_witness :
    PanicRecovery "stacktrace" (fun _ : Unit => HandlerResult.panicked "boom") () =
      ({ status := 500, headers := [("Connection", "close")], body := .errorMsg serverErrMsg },
       ["boom" ++ ", " ++ "stacktrace"]) :=
  panic_recovery_policy Unit (fun _ => HandlerResult.panicked "boom") () "boom" "stacktrace" rfl

/-- C1: the spec claims the opaque-bearer authenticator resolves an identity
only on a stored token with the authentication scope and a future expiry,
rejecting a matched-but-expired or wrong-scope token with a 401. On the
code, `GetUserByToken` filters on the hash alone — its scope argument never
reaches the query and no expiry condition is issued — so a stored token
under the activation scope with an expiry in the past still authenticates
its owner and the request proceeds. -/
theorem auth_ignores_scope_and_expiry :
    expiredActivationToken.Scope ≠ AuthenticationScope
    ∧ expiredActivationToken.Expiry < 0
    ∧ (ValidateTokenPlaintext NewValidator tok26).Valid = true
    ∧ ∀ next : CtxUser → HandlerResult,
        Auth dbScopeBug authHeaderBug next = next (.known sampleUser) := by
  refine ⟨by decide, by decide, by decide, ?_⟩
  intro next
  have hne : ¬authHeaderBug = [] := by decide
  have hsplit : splitSpaceB authHeaderBug = [goBytes "Bearer", tok26] := by decide
  have hval : (ValidateTokenPlaintext NewValidator tok26).Valid = true := by decide
  have hget : UserModel.GetUserByToken dbScopeBug tok26 AuthenticationScope = .ok sampleUser := by
    rfl
  simp only [Auth, if_neg hne, hsplit, hval, hget]
  simp

/-- C6: with stored activation-scope tokens present and a shape-valid
candidate matching none of them, the activation handler reads the expiry of
the nil match result before consulting the success flag: the request panics
with a nil dereference and surfaces as the generic 500 through the outer
panic wrapper, not as the invalid-activation-token 401. -/
theorem activation_unmatched_token_panics (db : DB) (now : Int) (userID : Nat)
    (userToken : GoStr) (stack : String)
    (hstored : TokenModel.GetTokensOfUserID db userID ActivationScope ≠ [])
    (hshape : (ValidateTokenPlaintext NewValidator userToken).Valid = true)
    (hnomatch : ∀ t ∈ TokenModel.GetTokensOfUserID db userID ActivationScope,
        t.Hash ≠ sha256 userToken) :
    (userActivationHandler db now (some userID) (.ok userToken)).1 = .panicked nilDerefPanicMsg
    ∧ PanicRecovery stack
        (fun db0 => (userActivationHandler db0 now (some userID) (.ok userToken)).1) db =
        (serverErrorResponse.setHeader "Connection" "close", [nilDerefPanicMsg ++ ", " ++ stack])
    ∧ serverErrorResponse.status = 500
    ∧ invalidActivationTokenResponse.status = 401 := by
  have hmatch : Tokens.Match (TokenModel.GetTokensOfUserID db userID ActivationScope) userToken =
      (none, false) := tokensMatchAux_none (sha256 userToken) _ hnomatch
  have h1 : (userActivationHandler db now (some userID) (.ok userToken)).1 =
      .panicked nilDerefPanicMsg := by
    simp only [userActivationHandler, hshape, hmatch]
    simp
  refine ⟨h1, ?_, rfl, rfl⟩
  simp [PanicRecovery, h1]

/-- Witness for C6: a database whose user 9 holds one activation token, and a
shape-valid candidate whose digest matches nothing. -/
theorem activation_unmatched_token_panics_witness :
    (userActivationHandler dbUnmatched 0 (some 9) (.ok candidateTok)).1 =
      .panicked nilDerefPanicMsg :=
  (activation_unmatched_token_panics dbUnmatched 0 9 candidateTok "st"
    (by decide) (by decide) (by decide)).1

/-- C8: under the validation frame (candidate and stored plaintexts at most
72 bytes), `Match` holds exactly when the candidate equals the string passed
to `Set`; a plaintext beyond 72 bytes is rejected by `Set` with the
password-too-long error rather than silently truncated; and the plaintext
validator accepts exactly 8 to 72 bytes. -/
theorem password_set_match_spec (p0 : Password) (setPass candidate : GoStr)
    (hset : setPass.length ≤ 72) (hcand : candidate.length ≤ 72) :
    (∃ p1, Password.Set p0 setPass = .ok p1 ∧
        (Password.Match { Plaintext := some candidate, Hash := p1.Hash } = some true ↔
          candidate = setPass))
    ∧ (∀ (q : Password) (lpw : GoStr), 72 < lpw.length →
        Password.Set q lpw = .error DataErr.errorPasswordTooLong)
    ∧ (∀ pw : GoStr, (ValidatePasswordPlaintext NewValidator pw).Valid = true ↔
        (8 ≤ pw.length ∧ pw.length ≤ 72)) := by
  refine ⟨⟨{ p0 with Plaintext := some setPass, Hash := some { cost := 12, key := setPass } },
      ?_, ?_⟩, ?_, fun pw => validatePasswordPlaintext_valid_iff pw⟩
  · simp [Password.Set, bcryptGenerateFromPassword, Nat.not_lt.mpr hset]
  · simp only [Password.Match, bcryptCompareHashAndPassword,
      List.take_of_length_le hcand, Option.some.injEq, decide_eq_true_eq]
    exact eq_comm
  · intro q lpw h
    simp [Password.Set, bcryptGenerateFromPassword, h]

/-- Witness for C8: the 73-byte boundary rejection, obtained from the claim
theorem at concrete inputs. -/
theorem password_set_match_spec_witness :
    Password.Set { Plaintext := none, Hash := none } (List.replicate 73 97) =
      .error DataErr.errorPasswordTooLong :=
  (password_set_match_spec { Plaintext := none, Hash := none } [] [] (by decide) (by decide)).2.1
    { Plaintext := none, Hash := none } (List.replicate 73 97) (by decide)

/-- Appending a fresh binding does not change other lookups. -/
theorem lookupClient_append_ne (m : List (String × ClientRateLimiter)) (a : String)
    (v : ClientRateLimiter) (key : String) (h : a ≠ key) :
    lookupClient (m ++ [(a, v)]) key = lookupClient m key := by
  induction m with
  | nil => simp [lookupClient, h]
  | cons p rest ih =>
    obtain ⟨k, w⟩ := p
    by_cases hk : k = key
    · simp [lookupClient, hk]
    · simp [lookupClient, hk, ih]

/-- Appending a binding for an absent key makes it found. -/
theorem lookupClient_append_none (m : List (String × ClientRateLimiter)) (a : String)
    (v : ClientRateLimiter) (h : lookupClient m a = none) :
    lookupClient (m ++ [(a, v)]) a = some v := by
  induction m with
  | nil => simp [lookupClient]
  | cons p rest ih =>
    obtain ⟨k, w⟩ := p
    by_cases hk : k = a
    · subst hk
      simp [lookupClient] at h
    · simp only [lookupClient, List.cons_append, if_neg hk] at h ⊢
      exact ih h

/-- Updating one key does not change other lookups. -/
theorem lookupClient_updateClient_ne (m : List (String × ClientRateLimiter)) (k : String)
    (f : ClientRateLimiter → ClientRateLimiter) (key : String) (h : k ≠ key) :
    lookupClient (updateClient m k f) key = lookupClient m key := by
  induction m with
  | nil => simp [lookupClient, updateClient]
  | cons p rest ih =>
    obtain ⟨k0, w⟩ := p
    by_cases hk0 : k0 = k
    · subst hk0
      simp [lookupClient, updateClient, h, ih]
    · by_cases hkey : k0 = key
      · subst hkey
        simp [lookupClient, updateClient, hk0]
      · simp [lookupClient, updateClient, hk0, hkey, ih]

/-- Updating a key maps its lookup through the update function. -/
theorem lookupClient_updateClient_eq (m : List (String × ClientRateLimiter)) (k : String)
    (f : ClientRateLimiter → ClientRateLimiter) :
    lookupClient (updateClient m k f) k = (lookupClient m k).map f := by
  induction m with
  | nil => simp [lookupClient, updateClient]
  | cons p rest ih =>
    obtain ⟨k0, w⟩ := p
    by_cases hk0 : k0 = k
    · subst hk0
      simp [lookupClient, updateClient]
    · simp [lookupClient, updateClient, hk0, ih]

/-- With the global bucket empty, the middleware halts with the 429 at once
and the state — the per-client map in particular — is untouched. -/
theorem rateLimit_global_empty (cfg : RLConfig) (now : Nat) (st : RLState) (a? : Option String)
    (hen : cfg.enabled = true) (h0 : st.nRL.tokens = 0) :
    RateLimit cfg now st a? = (.halted rateLimitExceedResponse, st) := by
  simp [RateLimit, hen, Limiter.Allow, h0]

/-- A fresh client with an available global token is admitted: the global
bucket loses one token, the client gets a map entry whose bucket was created
full and then consumed once, and no other key of the map changes. -/
theorem rateLimit_fresh_admitted (cfg : RLConfig) (now : Nat) (st : RLState) (a : String)
    (hen : cfg.enabled = true) (hpc : 0 < burstSize cfg.perClientRateLimit)
    (hpos : 0 < st.nRL.tokens) (hfresh : lookupClient st.pcnRL a = none) :
    ∃ st' : RLState, RateLimit cfg now st (some a) = (.passed, st')
      ∧ st'.nRL.tokens = st.nRL.tokens - 1
      ∧ ∀ b : String, b ≠ a → lookupClient st'.pcnRL b = lookupClient st.pcnRL b := by
  have hlook := lookupClient_append_none st.pcnRL a
    { Limit := NewLimiter cfg.perClientRateLimit (burstSize cfg.perClientRateLimit)
      LastAccess := now + expirationTime } hfresh
  simp only [NewLimiter] at hlook
  have heq : RateLimit cfg now st (some a) =
      (.passed,
        { nRL := { st.nRL with tokens := st.nRL.tokens - 1 }
          pcnRL := updateClient
            (st.pcnRL ++ [(a,
              { Limit := NewLimiter cfg.perClientRateLimit (burstSize cfg.perClientRateLimit)
                LastAccess := now + expirationTime })]) a
            (fun c => { c with Limit :=
              { rateLimit := cfg.perClientRateLimit
                burst := burstSize cfg.perClientRateLimit
                tokens := burstSize cfg.perClientRateLimit - 1 } }) }) := by
    simp only [RateLimit, hen, Bool.true_eq_false, if_false, Limiter.Allow, if_pos hpos,
      hfresh, hlook, NewLimiter, if_pos hpc]
    simp
  refine ⟨_, heq, rfl, ?_⟩
  intro b hb
  simp only [heq]
  rw [lookupClient_updateClient_ne _ _ _ _ (fun h => hb h.symm),
    lookupClient_append_ne _ _ _ _ (fun h => hb h.symm)]

/-- An instantaneous burst from pairwise-distinct fresh clients: the first
`tokens`-many requests pass, the rest are halted with the 429. -/
theorem rateLimitRun_fresh_distinct (cfg : RLConfig) (now : Nat)
    (hen : cfg.enabled = true) (hpc : 0 < burstSize cfg.perClientRateLimit) :
    ∀ (addrs : List String) (st : RLState),
      addrs.Nodup → (∀ a ∈ addrs, lookupClient st.pcnRL a = none) →
      (RateLimitRun cfg now st (addrs.map some)).1 =
        List.replicate (min st.nRL.tokens addrs.length) RLResult.passed ++
          List.replicate (addrs.length - st.nRL.tokens)
            (RLResult.halted rateLimitExceedResponse) := by
  intro addrs
  induction addrs with
  | nil => intro st _ _; simp [RateLimitRun]
  | cons a rest ih =>
    intro st hnd hfresh
    rcases Nat.eq_zero_or_pos st.nRL.tokens with h0 | hpos
    · have hstep := rateLimit_global_empty cfg now st (some a) hen h0
      simp only [List.map_cons, RateLimitRun, hstep]
      have hrec := ih st (List.Nodup.of_cons hnd)
        (fun b hb => hfresh b (List.mem_cons_of_mem a hb))
      rw [hrec, h0]
      simp [List.replicate_succ]
    · obtain ⟨st', hstep, htok, hother⟩ :=
        rateLimit_fresh_admitted cfg now st a hen hpc hpos (hfresh a (List.mem_cons_self a rest))
      simp only [List.map_cons, RateLimitRun, hstep]
      have hrec := ih st' ((List.nodup_cons.mp hnd).2)
        (fun b hb => by
          rw [hother b (fun hba => (List.nodup_cons.mp hnd).1 (hba ▸ hb))]
          exact hfresh b (List.mem_cons_of_mem a hb))
      rw [hrec, htok]
      obtain ⟨k, hk⟩ := Nat.exists_eq_succ_of_ne_zero (Nat.pos_iff_ne_zero.mp hpos)
      rw [hk]
      simp only [Nat.succ_sub_one, List.length_cons, Nat.succ_min_succ, Nat.succ_sub_succ,
        List.replicate_succ, List.cons_append, Nat.sub_zero]

/-- C3: with rate limiting enabled at global rate N (burst N + N/10), a burst
of burst+1 instantaneous requests from fresh distinct clients admits exactly
burst of them and halts the remainder with the 429 response; moreover the
global bucket is consulted first — an exhausted global bucket halts the
request with the per-client map completely untouched. -/
theorem rate_limiter_saturation (cfg : RLConfig) (now : Nat) (addrs : List String)
    (hen : cfg.enabled = true) (hpc : 0 < burstSize cfg.perClientRateLimit)
    (hlen : addrs.length = burstSize cfg.globalRateLimit + 1) (hnd : addrs.Nodup) :
    (RateLimitRun cfg now (RLStateNew cfg) (addrs.map some)).1 =
      List.replicate (burstSize cfg.globalRateLimit) RLResult.passed ++
        [RLResult.halted rateLimitExceedResponse]
    ∧ ∀ (st : RLState) (a? : Option String), st.nRL.tokens = 0 →
        RateLimit cfg now st a? = (.halted rateLimitExceedResponse, st) := by
  constructor
  · have hrun := rateLimitRun_fresh_distinct cfg now hen hpc addrs (RLStateNew cfg) hnd
      (fun a _ => rfl)
    rw [hrun, hlen]
    have htok : (RLStateNew cfg).nRL.tokens = burstSize cfg.globalRateLimit := rfl
    rw [htok, Nat.min_eq_left (Nat.le_succ _), Nat.succ_sub (Nat.le_refl _), Nat.sub_self,
      List.replicate_succ, List.replicate]
  · intro st a? h0
    exact rateLimit_global_empty cfg now st a? hen h0

/-- Witness for C3: rates of 10/sec on both tiers (burst 11) and twelve
distinct clients. -/
theorem rate_limiter_saturation_witness :
    (RateLimitRun rlCfg 0 (RLStateNew rlCfg) (rlAddrs.map some)).1 =
      List.replicate 11 RLResult.passed ++ [RLResult.halted rateLimitExceedResponse] :=
  (rate_limiter_saturation rlCfg 0 rlAddrs rfl (by decide) (by decide) (by decide)).1

/-- C7: per-client buckets are independent. Processing a request from client
A never changes client B's map entry; and B's admission outcome together
with B's resulting entry is determined by the global bucket and B's own
entry alone — two states agreeing on those agree on B's treatment. -/
theorem per_client_isolation (cfg : RLConfig) (now : Nat) (A B : String) (hne : A ≠ B) :
    (∀ st : RLState,
        lookupClient ((RateLimit cfg now st (some A)).2.pcnRL) B = lookupClient st.pcnRL B)
    ∧ (∀ st₁ st₂ : RLState, st₁.nRL = st₂.nRL →
        lookupClient st₁.pcnRL B = lookupClient st₂.pcnRL B →
        (RateLimit cfg now st₁ (some B)).1 = (RateLimit cfg now st₂ (some B)).1
        ∧ lookupClient ((RateLimit cfg now st₁ (some B)).2.pcnRL) B =
            lookupClient ((RateLimit cfg now st₂ (some B)).2.pcnRL) B) := by
  constructor
  · intro st
    cases hb : cfg.enabled with
    | false => simp [RateLimit, hb]
    | true =>
      by_cases hg : 0 < st.nRL.tokens
      · by_cases hf : lookupClient st.pcnRL A = none
        · have hlook := lookupClient_append_none st.pcnRL A
            { Limit := NewLimiter cfg.perClientRateLimit (burstSize cfg.perClientRateLimit)
              LastAccess := now + expirationTime } hf
          simp only [NewLimiter] at hlook
          simp only [RateLimit, hb, Bool.true_eq_false, if_false, Limiter.Allow, if_pos hg,
            hf, hlook, NewLimiter]
          split <;>
            simp only [if_true, if_false, Bool.false_eq_true, Bool.true_eq_false, ite_true, ite_false] <;>
            rw [lookupClient_updateClient_ne _ _ _ _ hne,
              lookupClient_append_ne _ _ _ _ hne]
        · obtain ⟨c, hc⟩ := Option.ne_none_iff_exists'.mp hf
          have hup : lookupClient
              (updateClient st.pcnRL A (fun c => { c with LastAccess := now + expirationTime })) A =
              some { c with LastAccess := now + expirationTime } := by
            rw [lookupClient_updateClient_eq, hc]; rfl
          simp only [RateLimit, hb, Bool.true_eq_false, if_false, Limiter.Allow, if_pos hg,
            hc, hup]
          split <;>
            simp only [if_true, if_false, Bool.false_eq_true, Bool.true_eq_false, ite_true, ite_false] <;>
            rw [lookupClient_updateClient_ne _ _ _ _ hne,
              lookupClient_updateClient_ne _ _ _ _ hne]
      · have h0 : st.nRL.tokens = 0 := Nat.eq_zero_of_not_pos hg
        rw [rateLimit_global_empty cfg now st (some A) hb h0]
  · intro st₁ st₂ h1 h2
    cases hb : cfg.enabled with
    | false => simp [RateLimit, hb, h2]
    | true =>
      by_cases hg : 0 < st₂.nRL.tokens
      · have hg1 : 0 < st₁.nRL.tokens := by rw [h1]; exact hg
        by_cases hf : lookupClient st₂.pcnRL B = none
        · have hf1 : lookupClient st₁.pcnRL B = none := by rw [h2]; exact hf
          have hlook1 := lookupClient_append_none st₁.pcnRL B
            { Limit := NewLimiter cfg.perClientRateLimit (burstSize cfg.perClientRateLimit)
              LastAccess := now + expirationTime } hf1
          have hlook2 := lookupClient_append_none st₂.pcnRL B
            { Limit := NewLimiter cfg.perClientRateLimit (burstSize cfg.perClientRateLimit)
              LastAccess := now + expirationTime } hf
          simp only [NewLimiter] at hlook1 hlook2
          simp only [RateLimit, hb, Bool.true_eq_false, if_false, Limiter.Allow, if_pos hg,
            if_pos hg1, hf, hf1, hlook1, hlook2, NewLimiter, h1]
          constructor
          · split <;> rfl
          · split <;>
              simp only [if_true, if_false, Bool.false_eq_true, Bool.true_eq_false, ite_true, ite_false] <;>
              simp only [lookupClient_updateClient_eq, hlook1, hlook2, Option.map_some]
        · obtain ⟨c, hc⟩ := Option.ne_none_iff_exists'.mp hf
          have hc1 : lookupClient st₁.pcnRL B = some c := by rw [h2]; exact hc
          have hup1 : lookupClient
              (updateClient st₁.pcnRL B (fun c => { c with LastAccess := now + expirationTime })) B =
              some { c with LastAccess := now + expirationTime } := by
            rw [lookupClient_updateClient_eq, hc1]; rfl
          have hup2 : lookupClient
              (updateClient st₂.pcnRL B (fun c => { c with LastAccess := now + expirationTime })) B =
              some { c with LastAccess := now + expirationTime } := by
            rw [lookupClient_updateClient_eq, hc]; rfl
          simp only [RateLimit, hb, Bool.true_eq_false, if_false, Limiter.Allow, if_pos hg,
            if_pos hg1, hc, hc1, hup1, hup2, h1]
          constructor
          · split <;> rfl
          · split <;>
              simp only [if_true, if_false, Bool.false_eq_true, Bool.true_eq_false, ite_true, ite_false] <;>
              simp only [lookupClient_updateClient_eq, hc, hc1, Option.map_some]
      · have h0 : st₂.nRL.tokens = 0 := Nat.eq_zero_of_not_pos hg
        have h01 : st₁.nRL.tokens = 0 := by rw [h1]; exact h0
        rw [rateLimit_global_empty cfg now st₁ (some B) hb h01,
          rateLimit_global_empty cfg now st₂ (some B) hb h0]
        exact ⟨rfl, h2⟩

/-- Witness for C7 at two concrete distinct addresses and a concrete state. -/
theorem per_client_isolation_witness :
    lookupClient ((RateLimit rlCfg 0 (RLStateNew rlCfg) (some "c0")).2.pcnRL) "c1" =
      lookupClient (RLStateNew rlCfg).pcnRL "c1" :=
  (per_client_isolation rlCfg 0 "c0" "c1" (by decide)).1 (RLStateNew rlCfg)

/-- Every run of the welcome-email retry loop makes at most three attempts. -/
theorem welcomeEmailRetry_attempts_le (send : Nat → Bool) :
    (welcomeEmailRetry send).attempts ≤ 3 := by
  by_cases h0 : send 0 = true <;> by_cases h1 : send 1 = true <;> by_cases h2 : send 2 = true <;>
    simp [welcomeEmailRetry, sendEmailRetryGo, h0, h1, h2, noEmailTrace]

/-- Failing all three attempts: three attempts, three 500ms sleeps, three
logged failures, no delivery, and nothing else. -/
theorem welcomeEmailRetry_all_fail (send : Nat → Bool)
    (h : ∀ i, i < 3 → send i = false) :
    welcomeEmailRetry send =
      { attempts := 3, delivered := false, sleptMs := [500, 500, 500], errLogs := 3 } := by
  have h0 := h 0 (by omega)
  have h1 := h 1 (by omega)
  have h2 := h 2 (by omega)
  simp [welcomeEmailRetry, sendEmailRetryGo, h0, h1, h2, noEmailTrace]

/-- First success at attempt k stops the loop: k + 1 attempts, k sleeps, k
logged failures. -/
theorem welcomeEmailRetry_first_success (send : Nat → Bool) (k : Nat) (hk : k < 3)
    (hfail : ∀ j, j < k → send j = false) (hsucc : send k = true) :
    welcomeEmailRetry send =
      { attempts := k + 1, delivered := true, sleptMs := List.replicate k 500, errLogs := k } := by
  interval_cases k
  · simp [welcomeEmailRetry, sendEmailRetryGo, hsucc, List.replicate]
  · have h0 := hfail 0 (by omega)
    simp [welcomeEmailRetry, sendEmailRetryGo, h0, hsucc, List.replicate]
  · have h0 := hfail 0 (by omega)
    have h1 := hfail 1 (by omega)
    simp [welcomeEmailRetry, sendEmailRetryGo, h0, h1, hsucc, List.replicate]

/-- Evaluation of the registration handler along its success path. -/
theorem registerUserHandler_success (db : DB) (now : Int) (inp : RegisterInput)
    (emailShapeOk : String → Bool) (newID : Nat) (randomBytes : GoStr) (send : Nat → Bool)
    (hn1 : inp.Name ≠ "") (hn2 : goLen inp.Name ≤ 500)
    (he1 : inp.Email ≠ "") (he2 : emailShapeOk inp.Email = true)
    (hp1 : 8 ≤ inp.Password.length) (hp2 : inp.Password.length ≤ 72)
    (hdup : ∀ u ∈ db.users, u.Email ≠ inp.Email) :
    registerUserHandler db now (.ok inp) emailShapeOk newID true randomBytes true send =
      (.response { status := 202
                   headers := [("Location", "/v1/users/" ++ toString newID)]
                   body := .resultUser (mkRegUser inp newID) },
       { users := db.users ++ [mkRegUser inp newID]
         tokens := db.tokens ++ [generateToken now newID (72 * 3600) ActivationScope randomBytes] },
       welcomeEmailRetry send) := by
  have hset : bcryptGenerateFromPassword inp.Password 12 = some { cost := 12, key := inp.Password } := by
    simp [bcryptGenerateFromPassword, Nat.not_lt.mpr hp2]
  have hpne : inp.Password ≠ [] := by
    intro he
    rw [he] at hp1
    simp at hp1
  have hfilter : (db.users.filter (fun u => decide (u.Email = inp.Email))).isEmpty = true := by
    rw [List.isEmpty_iff, List.filter_eq_nil_iff]
    intro u hu
    simp [hdup u hu]
  simp [registerUserHandler, Password.Set, hset, ValidateUser, ValidateEmail,
    ValidatePasswordPlaintext, Validator.Check, Validator.Valid, NewValidator,
    hn1, hn2, he1, he2, hp1, hp2, hpne, hfilter, registerEmailJob, mkRegUser]

/-- C10: on a registration that reaches the background dispatch, the response
is the 202 with the stored user, and both the response and the stored users
table are the same whatever the mail sender does; the job's trace is the
retry loop's: at most 3 attempts, stop at the first success with k failures
logged and k 500ms sleeps before it, and after three failures give up with
exactly three logged failures — the stored user stays. -/
theorem welcome_email_policy (db : DB) (now : Int) (inp : RegisterInput)
    (emailShapeOk : String → Bool) (newID : Nat) (randomBytes : GoStr) (send send' : Nat → Bool)
    (hn1 : inp.Name ≠ "") (hn2 : goLen inp.Name ≤ 500)
    (he1 : inp.Email ≠ "") (he2 : emailShapeOk inp.Email = true)
    (hp1 : 8 ≤ inp.Password.length) (hp2 : inp.Password.length ≤ 72)
    (hdup : ∀ u ∈ db.users, u.Email ≠ inp.Email) :
    (registerUserHandler db now (.ok inp) emailShapeOk newID true randomBytes true send).1 =
        .response { status := 202
                    headers := [("Location", "/v1/users/" ++ toString newID)]
                    body := .resultUser (mkRegUser inp newID) }
    ∧ mkRegUser inp newID ∈
        (registerUserHandler db now (.ok inp) emailShapeOk newID true randomBytes true send).2.1.users
    ∧ (registerUserHandler db now (.ok inp) emailShapeOk newID true randomBytes true send').1 =
        (registerUserHandler db now (.ok inp) emailShapeOk newID true randomBytes true send).1
    ∧ (registerUserHandler db now (.ok inp) emailShapeOk newID true randomBytes true send').2.1.users =
        (registerUserHandler db now (.ok inp) emailShapeOk newID true randomBytes true send).2.1.users
    ∧ (registerUserHandler db now (.ok inp) emailShapeOk newID true randomBytes true send).2.2 =
        welcomeEmailRetry send
    ∧ (welcomeEmailRetry send).attempts ≤ 3
    ∧ ((∀ i, i < 3 → send i = false) →
        welcomeEmailRetry send =
          { attempts := 3, delivered := false, sleptMs := [500, 500, 500], errLogs := 3 })
    ∧ (∀ k, k < 3 → (∀ j, j < k → send j = false) → send k = true →
        welcomeEmailRetry send =
          { attempts := k + 1, delivered := true, sleptMs := List.replicate k 500, errLogs := k }) := by
  have hs := registerUserHandler_success db now inp emailShapeOk newID randomBytes send
    hn1 hn2 he1 he2 hp1 hp2 hdup
  have hs' := registerUserHandler_success db now inp emailShapeOk newID randomBytes send'
    hn1 hn2 he1 he2 hp1 hp2 hdup
  refine ⟨by rw [hs], ?_, by rw [hs, hs'], by rw [hs, hs'], by rw [hs],
    welcomeEmailRetry_attempts_le send,
    fun h => welcomeEmailRetry_all_fail send h,
    fun k hk hf hsucc => welcomeEmailRetry_first_success send k hk hf hsucc⟩
  rw [hs]
  simp

/-- Witness for C10: empty database, in-bounds input, a sender that always
fails and one that always succeeds. -/
theorem welcome_email_policy_witness :
    (registerUserHandler ⟨[], []⟩ 0 (.ok regInput) (fun _ => true) 3 true
        (List.replicate 16 0) true (fun _ => false)).1 =
      .response { status := 202
                  headers := [("Location", "/v1/users/" ++ toString 3)]
                  body := .resultUser (mkRegUser regInput 3) } :=
  (welcome_email_policy ⟨[], []⟩ 0 regInput (fun _ => true) 3 (List.replicate 16 0)
    (fun _ => false) (fun _ => true) (by decide) (by decide) (by decide) rfl
    (by decide) (by decide) (by simp)).1

end Greenlight
